import Mathlib

/-
Shallow embedding of the unstructured peer-to-peer overlay node found in this
repository.  The repository contains three parallel implementations of the same
design: `Peer` in main.py, `Node` in main3.py (line-for-line the same protocol
logic as main.py) and `PeerNode` in peernode.py (together with message.py,
statistics_p2p.py and utils.py).  Both the `Peer`/`Node` family and the
`PeerNode` family are embedded below, because they disagree in several places.

Python values are modelled as follows: a (host, port) address tuple becomes
`PAddr := Option String × Int` (the host component is the string from the
connection, or `none` where Python holds `None`); Python `set`s become
duplicate-free lists with `insertOnce`; Python `dict`s become association
lists; raising an exception becomes returning `none`; `print` diagnostics that
carry protocol meaning become values of the inductive type `Signal`.
Network transmission (`send_message` / `transmit`) is modelled by recording the
destination/message pairs a handler would transmit.
-/

/-! ### Decimal numerals

Python's `str()` on an `int` and `int()` on a decimal token, as used by the
wire protocol (`f"{seqno}"`, `int(parts[1])`, ...).  `int()` is modelled on
the tokens the protocol actually produces: an optional minus sign followed by
digits (Python's `int` additionally strips whitespace and accepts `+`;
protocol tokens never contain those). -/

/-- Character for a single decimal digit, `0 ≤ n ≤ 9`. -/
def digitChar (n : Nat) : Char := Char.ofNat (48 + n)

/-- Numeric value of a decimal digit character. -/
def charVal (c : Char) : Nat := c.toNat - 48

/-- Test for a decimal digit character. -/
def isDigitChar (c : Char) : Bool := 48 ≤ c.toNat && c.toNat ≤ 57

/-- Fuel-indexed base-10 printer; `fuel > n` always suffices. -/
def natToCharsAux : Nat → Nat → List Char
  | 0, _ => []
  | fuel + 1, n =>
    if n < 10 then [digitChar n]
    else natToCharsAux fuel (n / 10) ++ [digitChar (n % 10)]

/-- Decimal representation of a natural number, as Python `str()` prints it. -/
def natToChars (n : Nat) : List Char := natToCharsAux (n + 1) n

/-- Value of a list of decimal digit characters. -/
def charsToNat (l : List Char) : Nat := l.foldl (fun a c => a * 10 + charVal c) 0

/-- Python `int()` on an unsigned decimal token: fails on the empty token or a
non-digit character. -/
def charsToNat? (l : List Char) : Option Nat :=
  if l ≠ [] ∧ l.all isDigitChar then some (charsToNat l) else none

/-- Decimal representation of an integer, as Python `str()` prints it. -/
def intToChars (i : Int) : List Char :=
  if i < 0 then '-' :: natToChars i.natAbs else natToChars i.natAbs

/-- Python `int()` on a possibly-signed decimal token. -/
def charsToInt? (l : List Char) : Option Int :=
  if l.head? = some '-' then (charsToNat? l.tail).map (fun n => -Int.ofNat n)
  else (charsToNat? l).map (fun n => Int.ofNat n)

/-- String form of `intToChars`. -/
def intToStr (i : Int) : String := String.mk (intToChars i)

/-- String form of `charsToInt?`. -/
def strToInt? (s : String) : Option Int := charsToInt? s.data

/-! ### Addresses

utils.parse_address / utils.address_to_string (and the identical module-level
functions of main.py and main3.py).  A Python address is a `(host, port)`
tuple; the host is a string on every address that ever reaches the neighbour
table, and `None` exactly where Python code reads the `sender` attribute of a
locally constructed message.  DNS resolution by `socket.getaddrinfo` is
network-dependent and is modelled as the identity on the already-numeric hosts
the protocol exchanges. -/

/-- A Python address tuple `(host, port)`. -/
abbrev PAddr := Option String × Int

/-- Characters of `f"{addr[0]}:{addr[1]}"`. -/
def addrChars (a : PAddr) : List Char :=
  (match a.1 with
   | some s => s.data
   | none => "None".data) ++ ':' :: intToChars a.2

/-- utils.address_to_string: `f"{address[0]}:{address[1]}"`. -/
def address_to_string (a : PAddr) : String := String.mk (addrChars a)

/-- utils.parse_address: split on `:` into exactly two parts, `int()` the
port, resolve the host (resolution modelled as the identity).  Returns `none`
where Python raises `ValueError`. -/
def parse_address (l : List Char) : Option PAddr :=
  match l.splitOn ':' with
  | [h, p] => (charsToInt? p).map (fun port => (some (String.mk h), port))
  | _ => none

/-! ### Wire messages

message.py `Message`; main.py's `Packet` and main3.py's `Message` have
field-for-field identical constructors, serializers, dedup keys and forward
transformations, so a single structure embeds all three. -/

/-- A parsed wire message.  `sender` is the IP of the TCP peer the message was
read from (`None` on locally constructed messages). -/
structure Message where
  sender : Option String
  origin : PAddr
  seqno : Int
  ttl : Int
  operation : String
  args : List String
deriving DecidableEq

/-- Message.to_unique_tuple / Packet.get_unique_id: the dedup key
`(origin, seqno, operation)`, refined with the search mode for `SEARCH`.
Python reads `args[0]`; every `SEARCH` message carries its mode there, and on
an argument-free message the modelled default is never consulted. -/
def Message.to_unique_tuple (m : Message) : String × Int × String :=
  if m.operation = "SEARCH" then
    (address_to_string m.origin, m.seqno, "SEARCH_" ++ m.args.headD "")
  else
    (address_to_string m.origin, m.seqno, m.operation)

/-- Message.forward_message / Packet.forward_search: rebuild the message with
the relay-port argument replaced by the new relay's port, TTL decremented and
hop count incremented.  Python destructures `mode, _, key, hop_count = args`
and calls `int(hop_count)`; `none` models the exceptions raised when that
fails.  The rebuilt message goes through the `Message` constructor with no
sender, so its `sender` is `None`. -/
def Message.forward_message (m : Message) (new_last_hop : PAddr) : Option Message :=
  match m.args with
  | [mode, _, key, hop_count] =>
    (strToInt? hop_count).map (fun h =>
      { sender := none
        origin := m.origin
        seqno := m.seqno
        ttl := m.ttl - 1
        operation := m.operation
        args := [mode, intToStr new_last_hop.2, key, intToStr (h + 1)] })
  | _ => none

/-- Message.is_ttl_expired / Packet.should_discard: `ttl <= 0`. -/
def Message.is_ttl_expired (m : Message) : Bool := m.ttl ≤ 0

/-- ASCII upper-casing of one character, as Python `str.upper()` acts on the
protocol's ASCII operation names. -/
def toUpperChar (c : Char) : Char :=
  if 97 ≤ c.toNat && c.toNat ≤ 122 then Char.ofNat (c.toNat - 32) else c

/-- Python `str.upper()` on a token. -/
def pyUpper (l : List Char) : List Char := l.map toUpperChar

/-- The whitespace-separated tokens of `Message.__str__`:
`f"{origin} {seqno} {ttl} {operation}"` joined with the argument list. -/
def messageTokens (m : Message) : List (List Char) :=
  [addrChars m.origin, intToChars m.seqno, intToChars m.ttl, m.operation.data]
    ++ m.args.map String.data

/-- Message.__str__ / Packet.__str__: the tokens joined by single spaces. -/
def serializeMessage (m : Message) : List Char :=
  [' '].intercalate (messageTokens m)

/-- Message.__init__ / Packet.__init__: split the line into whitespace-
separated tokens (the serializer emits only single spaces, where Python's
`str.split()` coincides with splitting on `' '` and dropping empty chunks),
require at least four tokens, parse the origin address and the integer
sequence number and TTL, and upper-case the operation.  `none` models the
exceptions Python raises on a malformed line. -/
def parseMessage (sender : Option String) (line : List Char) : Option Message :=
  match (line.splitOn ' ').filter (fun t => t ≠ []) with
  | o :: s :: t :: op :: args =>
    match parse_address o, charsToInt? s, charsToInt? t with
    | some origin, some sq, some tl =>
      some { sender := sender
             origin := origin
             seqno := sq
             ttl := tl
             operation := String.mk (pyUpper op)
             args := args.map String.mk }
    | _, _, _ => none
  | _ => none

/-! ### Collection and control-flow helpers shared by the embeddings -/

/-- Addition to a Python `set`, modelled on duplicate-free lists. -/
def insertOnce {α : Type} [DecidableEq α] (x : α) (l : List α) : List α :=
  if x ∈ l then l else l ++ [x]

/-- Lookup in a Python `dict` modelled as an association list with unique
keys. -/
def lookupKey (kvs : List (String × String)) (k : String) : Option String :=
  (kvs.find? (fun kv => kv.1 = k)).map (fun kv => kv.2)

/-- Python `list.remove` guarded by a membership test, as in
`PeerNode.remove_candidate` and `Peer.remove_unexplored`: remove the first
occurrence if present, otherwise leave the list unchanged. -/
def removeItem {α : Type} [DecidableEq α] (l : List α) (x : α) : List α :=
  if x ∈ l then l.erase x else l

/-- Python `random.choice`: a uniformly drawn index `k` selects element
`k % len`; `none` models the `IndexError` raised on an empty sequence. -/
def pyChoice {α : Type} (l : List α) (k : Nat) : Option α := l[k % l.length]?

/-- Python `list.pop()`: removes and returns the last element; `none` models
the `IndexError` raised on an empty list. -/
def pyPop {α : Type} (l : List α) : Option (α × List α) :=
  match l.getLast? with
  | some x => some (x, l.dropLast)
  | none => none

/-- Python's `==` between a `(host, port)` address tuple and the `sender`
attribute of a message (a `str`, or `None` on locally constructed messages):
values of different shapes are never equal in Python, so the comparison is
constantly false.  peernode.py performs exactly this comparison in
`process_flood_search`, `process_random_search` and `process_depth_search`,
always against the sender of the freshly forwarded copy. -/
def tupleEqualsSender (_n : PAddr) (_s : Option String) : Bool := false

/-- Python's `==` between the `active_node` field (an address tuple or `None`)
and a message's `sender` attribute (a `str` or `None`): true exactly when both
are `None`. -/
def activeEqualsSender (a : Option PAddr) (s : Option String) : Bool :=
  a = none && s = none

/-- Protocol-meaningful diagnostics printed by the handlers.  Each constructor
stands for one `print`/`log` call in the source (the Portuguese and English
texts of the parallel implementations are identified):
`duplicate` – "Mensagem repetida!" / "Duplicate packet!";
`keyFound` – the local key-store hit message;
`ttlExpired` – "TTL igual a zero..." / "Time to live reached zero...";
`bpNotFound` – "BP: Nao foi possivel localizar a chave ...";
`bpCycle` – "BP: ciclo detectado, devolvendo a mensagem...";
`bpBacktrack` – "BP: nenhum vizinho encontrou a chave, retrocedendo...";
`parentNone` – "Erro: Nó pai é None. ...";
`addressNone` – "Erro: endereço é None.";
`ttlError` – "Erro! TTL deve ser maior que 0" / "Error! TTL must be greater than 0";
`localHit` – the local hit report of a newly initiated search. -/
inductive Signal where
  | duplicate
  | keyFound
  | ttlExpired
  | bpNotFound
  | bpCycle
  | bpBacktrack
  | parentNone
  | addressNone
  | ttlError
  | localHit
deriving DecidableEq

/-- Result of running a handler: the successor node state, the list of
(destination, message) transmissions it performs, in order, and the signals it
reports. -/
structure Effects (σ : Type) where
  state : σ
  sends : List (PAddr × Message)
  signals : List Signal
deriving DecidableEq

/-! ### Statistics

statistics_p2p.Statistics and main.py's Metrics. -/

/-- statistics_p2p.Statistics: per-mode seen counters and per-mode hop-count
sample lists. -/
structure Statistics where
  flood_count : Nat
  random_count : Nat
  depth_count : Nat
  flood_hops : List Int
  random_hops : List Int
  depth_hops : List Int
deriving DecidableEq

/-- The fresh Statistics() object. -/
def Statistics.init : Statistics := ⟨0, 0, 0, [], [], []⟩

/-- Statistics.calculate_stats: `None`/"N/A" on an empty sample list, else the
mean `Σx/n` and the population variance `Σ(x − mean)²/n`, computed here in
exact rational arithmetic.  The Python string also prints
`stdev = variance ** 0.5`; the square root is taken in the theorems about this
definition (`Real.sqrt` of the returned variance). -/
def Statistics.calculate_stats (hops : List Int) : Option (ℚ × ℚ) :=
  if hops = [] then none
  else
    let n : ℚ := hops.length
    let avg : ℚ := (hops.map (fun x : Int => (x : ℚ))).sum / n
    let variance : ℚ := (hops.map (fun x : Int => ((x : ℚ) - avg) ^ 2)).sum / n
    some (avg, variance)

/-- main.py Metrics: per-mode seen counters and per-mode running aggregates
(Σhops, Σhops², sample count). -/
structure Metrics where
  flood_count : Nat
  random_walk_count : Nat
  depth_first_count : Nat
  flood_hops : Int
  flood_hops_squared : Int
  flood_samples : Nat
  random_walk_hops : Int
  random_walk_hops_squared : Int
  random_walk_samples : Nat
  depth_first_hops : Int
  depth_first_hops_squared : Int
  depth_first_samples : Nat
deriving DecidableEq

/-- The fresh Metrics() object. -/
def Metrics.init : Metrics := ⟨0, 0, 0, 0, 0, 0, 0, 0, 0, 0, 0, 0⟩

/-- Metrics.compute_stats: `None`/"N/A" on zero samples, else the mean
`Σhops/n` and the population variance `Σhops²/n − mean²`, in exact rational
arithmetic (the printed string also contains `variance ** 0.5`). -/
def compute_stats (samples : Nat) (total_hops total_hops_squared : Int) : Option (ℚ × ℚ) :=
  if samples = 0 then none
  else
    let mean : ℚ := (total_hops : ℚ) / (samples : ℚ)
    some (mean, (total_hops_squared : ℚ) / (samples : ℚ) - mean * mean)

/-! ### The peernode.py implementation -/

/-- peernode.PeerNode state. -/
structure PeerNode where
  address : PAddr
  neighbours : List PAddr
  keys : List (String × String)
  seqno : Int
  default_ttl : Int
  seen_messages : List (String × Int × String)
  stats : Statistics
  parent_node : Option PAddr
  candidates : List PAddr
  active_node : Option PAddr
deriving DecidableEq

/-- PeerNode.process_search_message, the shared gate of all three search
modes in peernode.py: destructure the arguments, discard an already-seen
dedup key (for every mode), mark the key seen, answer a local key hit with a
`VAL` sent directly to the origin, forward with decremented TTL and drop the
forwarded copy if its TTL expired.  The result carries the successor state,
the `VAL` transmissions, the signals, and the forwarded message handed to the
mode-specific code (`none` where Python returns `None`). -/
def PeerNode.process_search_message (p : PeerNode) (m : Message) :
    Option (PeerNode × List (PAddr × Message) × List Signal × Option Message) :=
  match m.args with
  | [mode, last_hop_port, key, hop_count] =>
    match strToInt? last_hop_port with
    | none => none
    | some _ =>
      if m.to_unique_tuple ∈ p.seen_messages then
        some (p, [], [Signal.duplicate], none)
      else
        let p := { p with seen_messages := insertOnce m.to_unique_tuple p.seen_messages }
        match lookupKey p.keys key with
        | some v =>
          let response : Message :=
            { sender := none, origin := p.address, seqno := p.seqno, ttl := 1,
              operation := "VAL", args := [mode, key, v, hop_count] }
          some ({ p with seqno := p.seqno + 1 }, [(m.origin, response)], [Signal.keyFound], none)
        | none =>
          match m.forward_message p.address with
          | none => none
          | some fwd =>
            if fwd.is_ttl_expired then some (p, [], [Signal.ttlExpired], none)
            else some (p, [], [], some fwd)
  | _ => none

/-- PeerNode.process_flood_search: relay the forwarded copy to every
neighbour whose tuple differs from `new_message.sender` — a comparison
between an address tuple and the forwarded copy's sender (always `None`),
which never excludes anything. -/
def PeerNode.process_flood_search (p : PeerNode) (m : Message) :
    Option (Effects PeerNode) :=
  match p.process_search_message m with
  | none => none
  | some (p, sends, sigs, none) => some ⟨p, sends, sigs⟩
  | some (p, sends, sigs, some fwd) =>
    some ⟨p,
          sends ++ (p.neighbours.filter (fun n => !tupleEqualsSender n fwd.sender)).map
            (fun n => (n, fwd)),
          sigs⟩

/-- PeerNode.send_message applied to `new_message.sender` used as an address:
Python's guard rejects `None` with an error print and sends nothing; a string
sender would be unpacked as `(addr, port)` and raise (`none`). -/
def sendToSenderAddress (s : Option String) (_msg : Message) :
    Option (List (PAddr × Message) × List Signal) :=
  match s with
  | none => some ([], [Signal.addressNone])
  | some _ => none

/-- PeerNode.process_random_search: after the shared gate, draw the next hop
from `[n for n in self.neighbours if n != new_message.sender]` — the filter
compares tuples against the forwarded copy's sender (always `None`) and so
keeps every neighbour, including the relay the message came from.  When the
neighbour list is empty the code falls back to
`send_message(new_message.sender, ...)`, i.e. to the address `None`. -/
def PeerNode.process_random_search (p : PeerNode) (m : Message) (k : Nat) :
    Option (Effects PeerNode) :=
  match p.process_search_message m with
  | none => none
  | some (p, sends, sigs, none) => some ⟨p, sends, sigs⟩
  | some (p, sends, sigs, some fwd) =>
    let neighbours := p.neighbours.filter (fun n => !tupleEqualsSender n fwd.sender)
    match pyChoice neighbours k with
    | some next_hop => some ⟨p, sends ++ [(next_hop, fwd)], sigs⟩
    | none =>
      match sendToSenderAddress fwd.sender fwd with
      | none => none
      | some (s2, g2) => some ⟨p, sends ++ s2, sigs ++ g2⟩

/-- PeerNode._handle_depth_search_response, the branch ladder run on the
state left by `process_depth_search`.  `new_message` is the forwarded copy,
whose `sender` is always `None`; comparisons against it are embedded through
`activeEqualsSender` and `sendToSenderAddress`. -/
def PeerNode.handle_depth_search_response (p : PeerNode) (fwd : Message) :
    Option (Effects PeerNode) :=
  match p.parent_node with
  | none => some ⟨p, [], [Signal.parentNone]⟩
  | some parent =>
    if parent = p.address ∧ activeEqualsSender p.active_node fwd.sender ∧ p.candidates = [] then
      some ⟨p, [], [Signal.bpNotFound]⟩
    else if p.active_node ≠ none ∧ !activeEqualsSender p.active_node fwd.sender then
      match sendToSenderAddress fwd.sender fwd with
      | none => none
      | some (s2, g2) => some ⟨p, s2, Signal.bpCycle :: g2⟩
    else if p.candidates = [] then
      some ⟨p, [(parent, fwd)], [Signal.bpBacktrack]⟩
    else
      match pyPop p.candidates with
      | some (nxt, rest) =>
        some ⟨{ p with candidates := rest, active_node := some nxt }, [(nxt, fwd)], []⟩
      | none => none

/-- PeerNode.remove_candidate applied to `new_message.sender`: removing the
value `None` (or a string) from a list of address tuples is a membership test
that always fails, so the list is unchanged. -/
def removeCandidateSender (l : List PAddr) (_s : Option String) : List PAddr := l

/-- PeerNode.process_depth_search: after the shared gate (which has already
added the dedup key to the seen set), re-initialize the session if the key is
not in the seen set — a condition that is always false at this point — then
remove `new_message.sender` (always `None`, so a no-op on a list of address
tuples) from the candidates and run the response ladder.  The fresh-session
assignments store `new_message.sender`: `parent_node` becomes `None` and the
candidate filter keeps every neighbour. -/
def PeerNode.process_depth_search (p : PeerNode) (m : Message) :
    Option (Effects PeerNode) :=
  match p.process_search_message m with
  | none => none
  | some (p, sends, sigs, none) => some ⟨p, sends, sigs⟩
  | some (p, sends, sigs, some fwd) =>
    let p :=
      if m.to_unique_tuple ∈ p.seen_messages then p
      else
        { p with parent_node := none,
                 candidates := p.neighbours.filter (fun n => !tupleEqualsSender n fwd.sender),
                 active_node := none }
    let p := { p with candidates := removeCandidateSender p.candidates fwd.sender }
    match p.handle_depth_search_response fwd with
    | none => none
    | some e => some ⟨e.state, sends ++ e.sends, sigs ++ e.signals⟩

/-- PeerNode._update_stats: bump the per-mode seen counter. -/
def PeerNode.update_stats (p : PeerNode) (mode : String) : PeerNode :=
  if mode = "FL" then { p with stats := { p.stats with flood_count := p.stats.flood_count + 1 } }
  else if mode = "RW" then
    { p with stats := { p.stats with random_count := p.stats.random_count + 1 } }
  else if mode = "BP" then
    { p with stats := { p.stats with depth_count := p.stats.depth_count + 1 } }
  else p

/-- PeerNode._process_search: read the mode from `args[0]` (`none` models the
IndexError on an argument-free message), bump the per-mode counter for a
known mode — before the duplicate gate runs — and dispatch; an unknown mode
does nothing. -/
def PeerNode.processSearch (p : PeerNode) (m : Message) (k : Nat) :
    Option (Effects PeerNode) :=
  match m.args with
  | [] => none
  | mode :: _ =>
    if mode = "FL" then (p.update_stats mode).process_flood_search m
    else if mode = "RW" then (p.update_stats mode).process_random_search m k
    else if mode = "BP" then (p.update_stats mode).process_depth_search m
    else some ⟨p, [], []⟩

/-- PeerNode.change_default_ttl: apply the new TTL only when it is positive,
otherwise report the error and leave the state unchanged. -/
def PeerNode.change_default_ttl (p : PeerNode) (new_ttl : Int) :
    PeerNode × List Signal :=
  if new_ttl > 0 then ({ p with default_ttl := new_ttl }, [])
  else (p, [Signal.ttlError])

/-- PeerNode._new_search: answer a local hit without network traffic, else
build the `SEARCH` message with the default TTL and hop count 1, mark its
dedup key seen and disseminate according to the mode: flood to every
neighbour, random walk to `random.choice(self.neighbours)` (an exception on
an empty table), depth-first by popping the candidate stack seeded with every
neighbour (an exception on an empty table). -/
def PeerNode.new_search (p : PeerNode) (search_type key : String) (k : Nat) :
    Option (Effects PeerNode) :=
  match lookupKey p.keys key with
  | some _ => some ⟨p, [], [Signal.localHit]⟩
  | none =>
    let msg : Message :=
      { sender := none, origin := p.address, seqno := p.seqno, ttl := p.default_ttl,
        operation := "SEARCH", args := [search_type, intToStr p.address.2, key, intToStr 1] }
    let p := { p with seqno := p.seqno + 1,
                      seen_messages := insertOnce msg.to_unique_tuple p.seen_messages }
    if search_type = "FL" then some ⟨p, p.neighbours.map (fun n => (n, msg)), []⟩
    else if search_type = "RW" then
      match pyChoice p.neighbours k with
      | some n => some ⟨p, [(n, msg)], []⟩
      | none => none
    else if search_type = "BP" then
      let p := { p with parent_node := some p.address, candidates := p.neighbours }
      match pyPop p.candidates with
      | some (c, rest) =>
        some ⟨{ p with candidates := rest, active_node := some c }, [(c, msg)], []⟩
      | none => none
    else some ⟨p, [], []⟩

/-! ### The main.py implementation

main3.py's `Node` implements the same handlers with the same statement order
(its only differences are cosmetic: log texts and the `match`-based menu), so
the `Peer` embedding below covers both. -/

/-- main.py Peer state. -/
structure Peer where
  address : PAddr
  neighbors : List PAddr
  data : List (String × String)
  sequence : Int
  default_ttl : Int
  processed : List (String × Int × String)
  metrics : Metrics
  parent : Option PAddr
  unexplored : List PAddr
  current : Option PAddr
deriving DecidableEq

/-- Peer.handle_flood_search: drop an already-processed dedup key with a
duplicate report and no other effect; otherwise mark it processed, bump the
flood counter, answer a local key hit with a `VAL` sent directly to the
origin, forward with decremented TTL, drop on TTL expiry, and otherwise relay
the forwarded copy to every neighbour other than the last hop
`(packet.sender, int(last_hop_port))`. -/
def Peer.handle_flood_search (p : Peer) (m : Message) : Option (Effects Peer) :=
  match m.args with
  | [_, last_hop_port, key, hop_count] =>
    match strToInt? last_hop_port with
    | none => none
    | some lp =>
      let last_hop : PAddr := (m.sender, lp)
      if m.to_unique_tuple ∈ p.processed then
        some ⟨p, [], [Signal.duplicate]⟩
      else
        let p := { p with processed := insertOnce m.to_unique_tuple p.processed }
        let p := { p with metrics :=
          { p.metrics with flood_count := p.metrics.flood_count + 1 } }
        match lookupKey p.data key with
        | some v =>
          match strToInt? hop_count with
          | none => none
          | some hc =>
            let reply : Message :=
              { sender := none, origin := p.address, seqno := p.sequence, ttl := 1,
                operation := "VAL", args := ["FL", key, v, intToStr hc] }
            some ⟨{ p with sequence := p.sequence + 1 }, [(m.origin, reply)],
                  [Signal.keyFound]⟩
        | none =>
          match m.forward_message p.address with
          | none => none
          | some fwd =>
            if fwd.is_ttl_expired then some ⟨p, [], [Signal.ttlExpired]⟩
            else
              some ⟨p, (p.neighbors.filter (fun n => n ≠ last_hop)).map (fun n => (n, fwd)),
                    []⟩
  | _ => none

/-- Peer.handle_random_walk_search: mark the dedup key processed (without a
duplicate gate), bump the random-walk counter, answer a local key hit with a
`VAL` to the origin, forward, drop on TTL expiry, and otherwise send the
forwarded copy to one neighbour drawn from the neighbours other than the last
hop, falling back to the last hop itself when that set is empty. -/
def Peer.handle_random_walk_search (p : Peer) (m : Message) (k : Nat) :
    Option (Effects Peer) :=
  match m.args with
  | [_, last_hop_port, key, hop_count] =>
    match strToInt? last_hop_port with
    | none => none
    | some lp =>
      let last_hop : PAddr := (m.sender, lp)
      let p := { p with processed := insertOnce m.to_unique_tuple p.processed }
      let p := { p with metrics :=
        { p.metrics with random_walk_count := p.metrics.random_walk_count + 1 } }
      match lookupKey p.data key with
      | some v =>
        match strToInt? hop_count with
        | none => none
        | some hc =>
          let reply : Message :=
            { sender := none, origin := p.address, seqno := p.sequence, ttl := 1,
              operation := "VAL", args := ["RW", key, v, intToStr hc] }
          some ⟨{ p with sequence := p.sequence + 1 }, [(m.origin, reply)],
                [Signal.keyFound]⟩
      | none =>
        match m.forward_message p.address with
        | none => none
        | some fwd =>
          if fwd.is_ttl_expired then some ⟨p, [], [Signal.ttlExpired]⟩
          else
            let options := p.neighbors.filter (fun n => n ≠ last_hop)
            let next_hop :=
              match pyChoice options k with
              | some n => n
              | none => last_hop
            some ⟨p, [(next_hop, fwd)], []⟩
  | _ => none

/-- Peer.handle_depth_first_search: bump the depth-first counter, answer a
local key hit with a `VAL` to the origin, forward, drop on TTL expiry; then,
when the dedup key is new, start a fresh session (`parent := last hop`,
`unexplored := all neighbours`, `current := None`); remove the last hop from
the unexplored stack, mark the key processed, and run the branch ladder:
originator exhaustion, cycle bounce to the last hop, backtrack to the parent
(an exception when the parent is `None`), or pop and probe the next
candidate. -/
def Peer.handle_depth_first_search (p : Peer) (m : Message) : Option (Effects Peer) :=
  match m.args with
  | [_, last_hop_port, key, hop_count] =>
    match strToInt? last_hop_port with
    | none => none
    | some lp =>
      let last_hop : PAddr := (m.sender, lp)
      let p := { p with metrics :=
        { p.metrics with depth_first_count := p.metrics.depth_first_count + 1 } }
      match lookupKey p.data key with
      | some v =>
        match strToInt? hop_count with
        | none => none
        | some hc =>
          let reply : Message :=
            { sender := none, origin := p.address, seqno := p.sequence, ttl := 1,
              operation := "VAL", args := ["BP", key, v, intToStr hc] }
          some ⟨{ p with sequence := p.sequence + 1 }, [(m.origin, reply)],
                [Signal.keyFound]⟩
      | none =>
        match m.forward_message p.address with
        | none => none
        | some fwd =>
          if fwd.is_ttl_expired then some ⟨p, [], [Signal.ttlExpired]⟩
          else
            let p :=
              if m.to_unique_tuple ∈ p.processed then p
              else { p with parent := some last_hop, unexplored := p.neighbors,
                            current := none }
            let p := { p with unexplored := removeItem p.unexplored last_hop }
            let p := { p with processed := insertOnce m.to_unique_tuple p.processed }
            if p.parent = some p.address ∧ p.current = some last_hop ∧ p.unexplored = [] then
              some ⟨p, [], [Signal.bpNotFound]⟩
            else if p.current ≠ none ∧ p.current ≠ some last_hop then
              some ⟨p, [(last_hop, fwd)], [Signal.bpCycle]⟩
            else if p.unexplored = [] then
              match p.parent with
              | some parent => some ⟨p, [(parent, fwd)], [Signal.bpBacktrack]⟩
              | none => none
            else
              match pyPop p.unexplored with
              | some (nxt, rest) =>
                some ⟨{ p with current := some nxt, unexplored := rest }, [(nxt, fwd)], []⟩
              | none => none
  | _ => none

/-- main.py Peer.set_default_ttl (and the line-identical
main3.py Node.change_default_ttl): assign the entered value to the default
TTL first, and only then report an error when it is below 1 — the invalid
value stays assigned. -/
def Peer.set_default_ttl (p : Peer) (n : Int) : Peer × List Signal :=
  let p := { p with default_ttl := n }
  if p.default_ttl < 1 then (p, [Signal.ttlError]) else (p, [])

/-- Peer.start_flood_search: answer a local hit without network traffic, else
build the `SEARCH FL` message with the default TTL and hop count 1, mark its
dedup key processed and transmit it to every neighbour. -/
def Peer.start_flood_search (p : Peer) (key : String) : Option (Effects Peer) :=
  match lookupKey p.data key with
  | some _ => some ⟨p, [], [Signal.localHit]⟩
  | none =>
    let msg : Message :=
      { sender := none, origin := p.address, seqno := p.sequence, ttl := p.default_ttl,
        operation := "SEARCH", args := ["FL", intToStr p.address.2, key, intToStr 1] }
    let p := { p with sequence := p.sequence + 1,
                      processed := insertOnce msg.to_unique_tuple p.processed }
    some ⟨p, p.neighbors.map (fun n => (n, msg)), []⟩

/-- Peer.start_random_walk_search: as for flooding, but the single recipient
is `random.choice(self.neighbors)` — an unhandled `IndexError` (`none`) when
the neighbour table is empty. -/
def Peer.start_random_walk_search (p : Peer) (key : String) (k : Nat) :
    Option (Effects Peer) :=
  match lookupKey p.data key with
  | some _ => some ⟨p, [], [Signal.localHit]⟩
  | none =>
    let msg : Message :=
      { sender := none, origin := p.address, seqno := p.sequence, ttl := p.default_ttl,
        operation := "SEARCH", args := ["RW", intToStr p.address.2, key, intToStr 1] }
    let p := { p with sequence := p.sequence + 1,
                      processed := insertOnce msg.to_unique_tuple p.processed }
    match pyChoice p.neighbors k with
    | some n => some ⟨p, [(n, msg)], []⟩
    | none => none

/-- Peer.start_depth_first_search: as for flooding, but seed the session
(`parent := own address`, `unexplored := all neighbours`) and probe
`unexplored.pop()` — an unhandled `IndexError` (`none`) when the neighbour
table is empty. -/
def Peer.start_depth_first_search (p : Peer) (key : String) : Option (Effects Peer) :=
  match lookupKey p.data key with
  | some _ => some ⟨p, [], [Signal.localHit]⟩
  | none =>
    let msg : Message :=
      { sender := none, origin := p.address, seqno := p.sequence, ttl := p.default_ttl,
        operation := "SEARCH", args := ["BP", intToStr p.address.2, key, intToStr 1] }
    let p := { p with sequence := p.sequence + 1,
                      processed := insertOnce msg.to_unique_tuple p.processed }
    let p := { p with parent := some p.address, unexplored := p.neighbors }
    match pyPop p.unexplored with
    | some (c, rest) =>
      some ⟨{ p with unexplored := rest, current := some c }, [(c, msg)], []⟩
    | none => none

/-! ### Supporting lemmas: decimal numerals -/

/-- Reading one more digit multiplies the accumulated value by ten. -/
theorem charsToNat_append (l : List Char) (c : Char) :
    charsToNat (l ++ [c]) = charsToNat l * 10 + charVal c := by
  simp [charsToNat, List.foldl_append]

/-- Value of a single digit character. -/
theorem charVal_digitChar {d : Nat} (h : d < 10) : charVal (digitChar d) = d := by
  interval_cases d <;> decide

/-- A digit character is a digit character. -/
theorem isDigitChar_digitChar {d : Nat} (h : d < 10) : isDigitChar (digitChar d) = true := by
  interval_cases d <;> decide

/-- A digit character is not a minus sign, a space or a colon. -/
theorem isDigitChar_ne {c : Char} (h : isDigitChar c = true) :
    c ≠ '-' ∧ c ≠ ' ' ∧ c ≠ ':' := by
  refine ⟨?_, ?_, ?_⟩ <;> rintro rfl <;> exact absurd h (by decide)

/-- With sufficient fuel, the base-10 printer emits a nonempty all-digit token
whose value is the printed number. -/
theorem natToCharsAux_spec :
    ∀ fuel n, n < fuel →
      natToCharsAux fuel n ≠ [] ∧ (∀ c ∈ natToCharsAux fuel n, isDigitChar c = true) ∧
        charsToNat (natToCharsAux fuel n) = n := by
  intro fuel
  induction fuel with
  | zero => omega
  | succ fuel ih =>
    intro n hn
    by_cases h10 : n < 10
    · refine ⟨by simp [natToCharsAux, h10], ?_, ?_⟩
      · intro c hc
        simp only [natToCharsAux, if_pos h10, List.mem_singleton] at hc
        subst hc
        exact isDigitChar_digitChar h10
      · simp [natToCharsAux, h10, charsToNat, charVal_digitChar h10]
    · have hdiv : n / 10 < fuel := by
        have := Nat.div_lt_self (by omega : 0 < n) (by omega : 1 < 10)
        omega
      obtain ⟨hne, hdig, hval⟩ := ih (n / 10) hdiv
      refine ⟨by simp [natToCharsAux, h10], ?_, ?_⟩
      · intro c hc
        simp only [natToCharsAux, if_neg h10, List.mem_append, List.mem_singleton] at hc
        rcases hc with hc | hc
        · exact hdig c hc
        · subst hc
          exact isDigitChar_digitChar (Nat.mod_lt _ (by omega))
      · rw [natToCharsAux, if_neg h10, charsToNat_append, hval,
          charVal_digitChar (Nat.mod_lt _ (by omega))]
        omega

/-- The decimal printer emits a nonempty token. -/
theorem natToChars_ne_nil (n : Nat) : natToChars n ≠ [] :=
  (natToCharsAux_spec (n + 1) n (Nat.lt_succ_self n)).1

/-- The decimal printer emits only digit characters. -/
theorem natToChars_all_digit (n : Nat) : ∀ c ∈ natToChars n, isDigitChar c = true :=
  (natToCharsAux_spec (n + 1) n (Nat.lt_succ_self n)).2.1

/-- Reading back the decimal representation of a natural number. -/
theorem charsToNat_natToChars (n : Nat) : charsToNat (natToChars n) = n :=
  (natToCharsAux_spec (n + 1) n (Nat.lt_succ_self n)).2.2

/-- Python `int()` inverts Python `str()` on naturals. -/
theorem charsToNat?_natToChars (n : Nat) : charsToNat? (natToChars n) = some n := by
  rw [charsToNat?, if_pos, charsToNat_natToChars]
  exact ⟨natToChars_ne_nil n, List.all_eq_true.2 (natToChars_all_digit n)⟩

/-- Every character of a printed integer is a minus sign or a digit. -/
theorem mem_intToChars (i : Int) : ∀ c ∈ intToChars i, c = '-' ∨ isDigitChar c = true := by
  intro c hc
  unfold intToChars at hc
  split at hc
  · rcases List.mem_cons.1 hc with h | h
    · exact Or.inl h
    · exact Or.inr (natToChars_all_digit _ c h)
  · exact Or.inr (natToChars_all_digit _ c hc)

/-- A printed integer is a nonempty token. -/
theorem intToChars_ne_nil (i : Int) : intToChars i ≠ [] := by
  unfold intToChars
  split
  · simp
  · exact natToChars_ne_nil _

/-- A printed integer contains no space and no colon. -/
theorem intToChars_no_space_colon (i : Int) :
    ' ' ∉ intToChars i ∧ ':' ∉ intToChars i := by
  constructor <;> intro hmem <;> rcases mem_intToChars i _ hmem with h | h
  · exact absurd h (by decide)
  · exact absurd ((isDigitChar_ne h).2.1 rfl) (fun hf => hf)
  · exact absurd h (by decide)
  · exact absurd ((isDigitChar_ne h).2.2 rfl) (fun hf => hf)

/-- Python `int()` inverts Python `str()` on integers. -/
theorem charsToInt?_intToChars (i : Int) : charsToInt? (intToChars i) = some i := by
  by_cases hi : i < 0
  · rw [intToChars, if_pos hi, charsToInt?, if_pos (by simp), List.tail_cons,
      charsToNat?_natToChars]
    have h2 : -((i.natAbs : Nat) : Int) = i := by omega
    rw [Option.map_some']
    exact congrArg some h2
  · have hhead : (natToChars i.natAbs).head? ≠ some '-' := by
      obtain ⟨c, t, hct⟩ := List.exists_cons_of_ne_nil (natToChars_ne_nil i.natAbs)
      rw [hct]
      have hd : isDigitChar c = true := natToChars_all_digit _ c (hct ▸ List.mem_cons_self c t)
      simp only [List.head?_cons, ne_eq, Option.some.injEq]
      exact (isDigitChar_ne hd).1
    rw [intToChars, if_neg hi, charsToInt?, if_neg hhead, charsToNat?_natToChars]
    have h2 : ((i.natAbs : Nat) : Int) = i := by omega
    rw [Option.map_some']
    exact congrArg some h2

/-- String-level version of the integer round trip. -/
theorem strToInt?_intToStr (i : Int) : strToInt? (intToStr i) = some i :=
  charsToInt?_intToChars i

/-! ### Supporting lemmas: addresses and wire lines -/

/-- Rebuilding a string from its characters is the identity. -/
theorem stringMk_data (s : String) : String.mk s.data = s := rfl

/-- Splitting `a ++ ':' :: b` on the colon recovers the two chunks when
neither contains a colon. -/
theorem splitOn_colon_pair (a b : List Char) (h : ':' ∉ a) (h2 : ':' ∉ b) :
    (a ++ ':' :: b).splitOn ':' = [a, b] := by
  have hx : ∀ l ∈ [a, b], ':' ∉ l := by
    intro l hl
    simp only [List.mem_cons, List.not_mem_nil, or_false] at hl
    rcases hl with rfl | rfl
    · exact h
    · exact h2
  have hs := List.splitOn_intercalate [a, b] ':' hx (by simp)
  have hpair : [':'].intercalate [a, b] = a ++ ':' :: b := by
    simp [List.intercalate]
  rwa [hpair] at hs

/-- Parsing the printed form of a resolved address recovers it. -/
theorem parse_address_addrChars (ip : String) (port : Int) (hipc : ':' ∉ ip.data) :
    parse_address (addrChars (some ip, port)) = some (some ip, port) := by
  have hsplit : (addrChars (some ip, port)).splitOn ':' = [ip.data, intToChars port] := by
    show (ip.data ++ ':' :: intToChars port).splitOn ':' = _
    exact splitOn_colon_pair _ _ hipc (intToChars_no_space_colon port).2
  unfold parse_address
  rw [hsplit]
  simp [charsToInt?_intToChars, stringMk_data]

/-- Every token the serializer emits is nonempty and space-free, under the
stated validity of the origin host, the operation and the arguments. -/
theorem messageTokens_valid (m : Message) (ip : String)
    (hip : m.origin.1 = some ip) (hips : ' ' ∉ ip.data)
    (hopne : m.operation.data ≠ []) (hops : ' ' ∉ m.operation.data)
    (hargs : ∀ a ∈ m.args, a.data ≠ [] ∧ ' ' ∉ a.data) :
    ∀ t ∈ messageTokens m, t ≠ [] ∧ ' ' ∉ t := by
  intro t ht
  simp only [messageTokens, List.mem_append, List.mem_cons, List.not_mem_nil, or_false,
    List.mem_map] at ht
  rcases ht with ((rfl | rfl | rfl | rfl) | ⟨a, ha, rfl⟩)
  · constructor
    · rw [addrChars, hip]
      simp
    · rw [addrChars, hip]
      intro hmem
      rcases List.mem_append.1 hmem with h | h
      · exact hips h
      · rcases List.mem_cons.1 h with h | h
        · exact absurd h (by decide)
        · exact (intToChars_no_space_colon _).1 h
  · exact ⟨intToChars_ne_nil _, (intToChars_no_space_colon _).1⟩
  · exact ⟨intToChars_ne_nil _, (intToChars_no_space_colon _).1⟩
  · exact ⟨hopne, hops⟩
  · exact hargs a ha

/-- Parsing the serialized form of a valid message recovers every field. -/
theorem parseMessage_serializeMessage (m : Message) (ip : String)
    (hip : m.origin.1 = some ip) (hipc : ':' ∉ ip.data) (hips : ' ' ∉ ip.data)
    (hopne : m.operation.data ≠ []) (hops : ' ' ∉ m.operation.data)
    (hopup : pyUpper m.operation.data = m.operation.data)
    (hargs : ∀ a ∈ m.args, a.data ≠ [] ∧ ' ' ∉ a.data) :
    parseMessage m.sender (serializeMessage m) = some m := by
  have htoks := messageTokens_valid m ip hip hips hopne hops hargs
  have hsplit : (serializeMessage m).splitOn ' ' = messageTokens m :=
    List.splitOn_intercalate (messageTokens m) ' '
      (fun l hl => (htoks l hl).2) (by simp [messageTokens])
  have hfilter : (messageTokens m).filter (fun t => t ≠ []) = messageTokens m :=
    List.filter_eq_self.mpr (fun a ha => by simpa using (htoks a ha).1)
  have horig : m.origin = (some ip, m.origin.2) := by
    rw [← hip]
  have hmt : messageTokens m = addrChars (some ip, m.origin.2) :: intToChars m.seqno ::
      intToChars m.ttl :: m.operation.data :: m.args.map String.data := by
    rw [← horig]
    rfl
  unfold parseMessage
  rw [hsplit, hfilter, hmt]
  simp only [parse_address_addrChars ip m.origin.2 hipc, charsToInt?_intToChars,
    hopup, stringMk_data]
  rw [← horig]
  have hargsmap : (m.args.map String.data).map String.mk = m.args := by
    rw [List.map_map]
    have h : (String.mk ∘ String.data) = id := funext stringMk_data
    rw [h, List.map_id]
  rw [hargsmap]

/-! ### Supporting lemmas: statistics -/

/-- Casting an integer list sum into the rationals, elementwise. -/
theorem sum_map_ratCast (l : List Int) :
    (l.map (fun x : Int => (x : ℚ))).sum = ((l.sum : Int) : ℚ) := by
  induction l with
  | nil => simp
  | cons a l ih =>
    simp only [List.map_cons, List.sum_cons, ih, List.sum_cons]
    push_cast
    ring

/-- Casting an integer list sum of squares into the rationals. -/
theorem sum_map_sq_ratCast (l : List Int) :
    (l.map (fun x : Int => ((x : ℚ)) ^ 2)).sum
      = (((l.map (fun x : Int => x * x)).sum : Int) : ℚ) := by
  induction l with
  | nil => simp
  | cons a l ih =>
    simp only [List.map_cons, List.sum_cons, ih]
    push_cast
    ring

/-- Expansion of a sum of squared deviations. -/
theorem sum_sq_dev (l : List Int) (μ : ℚ) :
    (l.map (fun x : Int => ((x : ℚ) - μ) ^ 2)).sum
      = (l.map (fun x : Int => ((x : ℚ)) ^ 2)).sum
        - 2 * μ * (l.map (fun x : Int => (x : ℚ))).sum + (l.length : ℚ) * μ ^ 2 := by
  induction l with
  | nil => simp
  | cons a l ih =>
    simp only [List.map_cons, List.sum_cons, ih, List.length_cons]
    push_cast
    ring

/-- The sample-list formula of statistics_p2p.py and the running-aggregate
formula of main.py compute the same mean and variance. -/
theorem calculate_stats_eq_compute_stats (hops : List Int) (h : hops ≠ []) :
    Statistics.calculate_stats hops
      = compute_stats hops.length hops.sum ((hops.map (fun x : Int => x * x)).sum) := by
  have hlen : hops.length ≠ 0 := fun hh => h (List.length_eq_zero.mp hh)
  have hn : ((hops.length : Nat) : ℚ) ≠ 0 := Nat.cast_ne_zero.mpr hlen
  rw [Statistics.calculate_stats, compute_stats, if_neg h, if_neg hlen]
  simp only [Option.some.injEq, Prod.mk.injEq]
  constructor
  · rw [sum_map_ratCast]
  · rw [sum_sq_dev, sum_map_ratCast, sum_map_sq_ratCast]
    field_simp
    ring

/-- Adding an element to a modelled Python set makes it a member. -/
theorem mem_insertOnce_self {α : Type} [DecidableEq α] (x : α) (l : List α) :
    x ∈ insertOnce x l := by
  unfold insertOnce
  split
  · assumption
  · simp

/-! ### Claim theorems -/

/-- C1: a flood SEARCH with an already-seen dedup key is discarded with a
duplicate signal and no state change, and RW/BP messages are not discarded at
the dedup gate.  peernode.py violates this: its shared gate
`process_search_message` discards duplicates in all three modes (and its
dispatcher has already bumped the per-mode counter).  At the concrete
duplicate BP message below, `PeerNode` discards (duplicate signal, no sends)
while the `Peer` of main.py processes it and relays it (here: backtracks to
its parent). -/
theorem c1_peernode_discards_duplicate_depth_search :
    PeerNode.processSearch
      ⟨(some "10.0.0.9", 9000),
       [(some "10.0.0.1", 5001), (some "10.0.0.2", 5002)], [], 1, 100,
       [("10.0.0.5:5005", 7, "SEARCH_BP")], Statistics.init, none, [], none⟩
      ⟨some "10.0.0.1", (some "10.0.0.5", 5005), 7, 5, "SEARCH",
       ["BP", "5001", "chave", "2"]⟩ 0
      = some ⟨⟨(some "10.0.0.9", 9000),
               [(some "10.0.0.1", 5001), (some "10.0.0.2", 5002)], [], 1, 100,
               [("10.0.0.5:5005", 7, "SEARCH_BP")], ⟨0, 0, 1, [], [], []⟩,
               none, [], none⟩,
              [], [Signal.duplicate]⟩
  ∧ Peer.handle_depth_first_search
      ⟨(some "10.0.0.9", 9000),
       [(some "10.0.0.1", 5001), (some "10.0.0.2", 5002)], [], 1, 100,
       [("10.0.0.5:5005", 7, "SEARCH_BP")], Metrics.init,
       some (some "10.0.0.2", 5002), [(some "10.0.0.1", 5001)], none⟩
      ⟨some "10.0.0.1", (some "10.0.0.5", 5005), 7, 5, "SEARCH",
       ["BP", "5001", "chave", "2"]⟩
      = some ⟨⟨(some "10.0.0.9", 9000),
               [(some "10.0.0.1", 5001), (some "10.0.0.2", 5002)], [], 1, 100,
               [("10.0.0.5:5005", 7, "SEARCH_BP")], ⟨0, 0, 1, 0, 0, 0, 0, 0, 0, 0, 0, 0⟩,
               some (some "10.0.0.2", 5002), [], none⟩,
              [((some "10.0.0.2", 5002),
                ⟨none, (some "10.0.0.5", 5005), 7, 4, "SEARCH",
                 ["BP", "9000", "chave", "3"]⟩)],
              [Signal.bpBacktrack]⟩ := by
  exact ⟨rfl, rfl⟩

/-- C2: a first-seen depth-first SEARCH from relay R starts a fresh session
with `parent = R`, candidates = neighbours minus R, active unset until the
descent pops a candidate.  main.py does exactly this (below: parent becomes
the relay `(10.0.0.2, 5002)`, the candidate stack is seeded with both
neighbours, R is removed from it, and the descent pops the remaining
candidate B and probes it).  peernode.py violates the claim: its shared gate
adds the dedup key to the seen set before the `not in seen_messages` test, so
the fresh-session branch never runs, `parent_node` stays `None` and the
message is dropped with the parent-is-None error. -/
theorem c2_peernode_never_starts_fresh_depth_session :
    Peer.handle_depth_first_search
      ⟨(some "10.0.0.9", 9000),
       [(some "10.0.0.1", 5001), (some "10.0.0.2", 5002)], [], 1, 100,
       [], Metrics.init, none, [], none⟩
      ⟨some "10.0.0.2", (some "10.0.0.5", 5005), 3, 5, "SEARCH",
       ["BP", "5002", "chave", "1"]⟩
      = some ⟨⟨(some "10.0.0.9", 9000),
               [(some "10.0.0.1", 5001), (some "10.0.0.2", 5002)], [], 1, 100,
               [("10.0.0.5:5005", 3, "SEARCH_BP")], ⟨0, 0, 1, 0, 0, 0, 0, 0, 0, 0, 0, 0⟩,
               some (some "10.0.0.2", 5002), [], some (some "10.0.0.1", 5001)⟩,
              [((some "10.0.0.1", 5001),
                ⟨none, (some "10.0.0.5", 5005), 3, 4, "SEARCH",
                 ["BP", "9000", "chave", "2"]⟩)],
              []⟩
  ∧ PeerNode.process_depth_search
      ⟨(some "10.0.0.9", 9000),
       [(some "10.0.0.1", 5001), (some "10.0.0.2", 5002)], [], 1, 100,
       [], Statistics.init, none, [], none⟩
      ⟨some "10.0.0.2", (some "10.0.0.5", 5005), 3, 5, "SEARCH",
       ["BP", "5002", "chave", "1"]⟩
      = some ⟨⟨(some "10.0.0.9", 9000),
               [(some "10.0.0.1", 5001), (some "10.0.0.2", 5002)], [], 1, 100,
               [("10.0.0.5:5005", 3, "SEARCH_BP")], Statistics.init, none, [], none⟩,
              [], [Signal.parentNone]⟩ := by
  exact ⟨rfl, rfl⟩

/-- C3 (counterexample): the claim says the cycle branch bounces the received
message back unchanged.  At this concrete input the node (main.py `Peer`,
with an active probe B and a message arriving from C ≠ B) does send exactly
one message to C, but it is the forwarded copy — TTL decremented from 5 to 4,
hop count incremented, relay port rewritten — not the received message. -/
theorem c3_cycle_bounce_is_not_unchanged :
    Peer.handle_depth_first_search
      ⟨(some "10.0.0.9", 9000),
       [(some "10.0.0.1", 5001), (some "10.0.0.2", 5002)], [], 1, 100,
       [("10.0.0.5:5005", 9, "SEARCH_BP")], Metrics.init,
       some (some "10.0.0.9", 9000), [], some (some "10.0.0.1", 5001)⟩
      ⟨some "10.0.0.2", (some "10.0.0.5", 5005), 9, 5, "SEARCH",
       ["BP", "5002", "chave", "4"]⟩
      = some ⟨⟨(some "10.0.0.9", 9000),
               [(some "10.0.0.1", 5001), (some "10.0.0.2", 5002)], [], 1, 100,
               [("10.0.0.5:5005", 9, "SEARCH_BP")], ⟨0, 0, 1, 0, 0, 0, 0, 0, 0, 0, 0, 0⟩,
               some (some "10.0.0.9", 9000), [], some (some "10.0.0.1", 5001)⟩,
              [((some "10.0.0.2", 5002),
                ⟨none, (some "10.0.0.5", 5005), 9, 4, "SEARCH",
                 ["BP", "9000", "chave", "5"]⟩)],
              [Signal.bpCycle]⟩
  ∧ (⟨none, (some "10.0.0.5", 5005), 9, 4, "SEARCH", ["BP", "9000", "chave", "5"]⟩
       : Message)
      ≠ ⟨some "10.0.0.2", (some "10.0.0.5", 5005), 9, 5, "SEARCH",
         ["BP", "5002", "chave", "4"]⟩ := by
  exact ⟨rfl, by decide⟩

/-- C3 (amended): on a depth-first SEARCH from relay R handled while the
session's active probe is set and differs from R (key not held locally, TTL
not exhausted after forwarding), what the node does depends on the
implementation.  main.py / main3.py send exactly one message, addressed to R,
and that message is the forwarded copy — TTL decremented by one, hop count
incremented by one, relay port rewritten to the node's own port — not the
received message unchanged (first conjunct; the dedup key is already seen
there, so the session is not re-seeded).  peernode.py detects the cycle
whenever its active probe is set, because it compares the probe against the
forwarded copy's sender (always `None`), and it addresses the bounce to that
same `None` sender, which `send_message` rejects with the address-is-None
error: nothing is transmitted at all (second conjunct; there the dedup key
must be new, since its gate discards every already-seen key). -/
theorem c3_cycle_bounces_forwarded_copy (p : Peer) (pn : PeerNode) (m : Message)
    (mode lps key hc s : String) (lp hcv : Int) (c par cact : PAddr)
    (hargs : m.args = [mode, lps, key, hc])
    (hlp : strToInt? lps = some lp)
    (hhc : strToInt? hc = some hcv)
    (hsender : m.sender = some s)
    (hkey : lookupKey p.data key = none)
    (httl : 2 ≤ m.ttl)
    (hseen : m.to_unique_tuple ∈ p.processed)
    (hcur : p.current = some c)
    (hne : c ≠ (some s, lp))
    (hnkey : lookupKey pn.keys key = none)
    (hnseen : m.to_unique_tuple ∉ pn.seen_messages)
    (hpar : pn.parent_node = some par)
    (hact : pn.active_node = some cact) :
    Peer.handle_depth_first_search p m
      = some ⟨{ p with
                metrics :=
                  { p.metrics with depth_first_count := p.metrics.depth_first_count + 1 },
                unexplored := removeItem p.unexplored (some s, lp),
                processed := insertOnce m.to_unique_tuple p.processed },
              [((some s, lp),
                ⟨none, m.origin, m.seqno, m.ttl - 1, m.operation,
                 [mode, intToStr p.address.2, key, intToStr (hcv + 1)]⟩)],
              [Signal.bpCycle]⟩
  ∧ PeerNode.process_depth_search pn m
      = some ⟨{ pn with
                seen_messages := insertOnce m.to_unique_tuple pn.seen_messages },
              [], [Signal.bpCycle, Signal.addressNone]⟩ := by
  constructor
  · have hfwd : m.forward_message p.address
        = some ⟨none, m.origin, m.seqno, m.ttl - 1, m.operation,
                [mode, intToStr p.address.2, key, intToStr (hcv + 1)]⟩ := by
      unfold Message.forward_message
      rw [hargs]
      simp [hhc]
    have hT : ¬ (m.ttl - 1 ≤ 0) := by omega
    unfold Peer.handle_depth_first_search
    rw [hargs]
    simp only [hlp, hkey, hfwd, hsender, Message.is_ttl_expired, hseen, if_true, if_false]
    rw [if_neg (by simpa using hT)]
    have h2 : ¬ (p.parent = some p.address ∧ p.current = some (some s, lp)
        ∧ removeItem p.unexplored (some s, lp) = []) := by
      rintro ⟨-, h2, -⟩
      rw [hcur] at h2
      exact hne (Option.some.inj h2)
    rw [if_neg h2]
    have h3 : p.current ≠ none ∧ p.current ≠ some (some s, lp) := by
      constructor
      · rw [hcur]
        simp
      · rw [hcur]
        simp [hne]
    rw [if_pos h3]
  · have hfwdn : m.forward_message pn.address
        = some ⟨none, m.origin, m.seqno, m.ttl - 1, m.operation,
                [mode, intToStr pn.address.2, key, intToStr (hcv + 1)]⟩ := by
      unfold Message.forward_message
      rw [hargs]
      simp [hhc]
    have hT : ¬ (decide (m.ttl - 1 ≤ 0) = true) := by
      simp only [decide_eq_true_eq]
      omega
    have hgate : PeerNode.process_search_message pn m
        = some ({ pn with
                  seen_messages := insertOnce m.to_unique_tuple pn.seen_messages },
                [], [],
                some ⟨none, m.origin, m.seqno, m.ttl - 1, m.operation,
                      [mode, intToStr pn.address.2, key, intToStr (hcv + 1)]⟩) := by
      unfold PeerNode.process_search_message
      rw [hargs]
      simp only [hlp, hnkey, hfwdn, Message.is_ttl_expired]
      rw [if_neg (by simpa using hnseen), if_neg hT]
    unfold PeerNode.process_depth_search
    rw [hgate]
    simp only [mem_insertOnce_self, if_true, if_pos]
    unfold PeerNode.handle_depth_search_response
    simp only [removeCandidateSender, hpar, hact, activeEqualsSender]
    rw [if_neg (by simp)]
    rw [if_pos (by simp)]
    rfl

/-- C3 (witness): the amended cycle-bounce theorem applied at a concrete
message, a concrete main.py node with an active probe differing from the
relay, and a concrete peernode.py node with an originator session. -/
theorem c3_cycle_bounces_forwarded_copy_witness :
    Peer.handle_depth_first_search
      ⟨(some "10.0.0.9", 9000),
       [(some "10.0.0.1", 5001), (some "10.0.0.2", 5002)], [], 1, 100,
       [("10.0.0.5:5005", 11, "SEARCH_BP")], Metrics.init,
       some (some "10.0.0.9", 9000), [], some (some "10.0.0.1", 5001)⟩
      ⟨some "10.0.0.2", (some "10.0.0.5", 5005), 11, 6, "SEARCH",
       ["BP", "5002", "chave", "4"]⟩
      = some ⟨⟨(some "10.0.0.9", 9000),
               [(some "10.0.0.1", 5001), (some "10.0.0.2", 5002)], [], 1, 100,
               [("10.0.0.5:5005", 11, "SEARCH_BP")], ⟨0, 0, 1, 0, 0, 0, 0, 0, 0, 0, 0, 0⟩,
               some (some "10.0.0.9", 9000), [], some (some "10.0.0.1", 5001)⟩,
              [((some "10.0.0.2", 5002),
                ⟨none, (some "10.0.0.5", 5005), 11, 5, "SEARCH",
                 ["BP", "9000", "chave", "5"]⟩)],
              [Signal.bpCycle]⟩
  ∧ PeerNode.process_depth_search
      ⟨(some "10.0.0.9", 9000),
       [(some "10.0.0.1", 5001), (some "10.0.0.2", 5002)], [], 2, 100,
       [], Statistics.init, some (some "10.0.0.9", 9000), [],
       some (some "10.0.0.1", 5001)⟩
      ⟨some "10.0.0.2", (some "10.0.0.5", 5005), 11, 6, "SEARCH",
       ["BP", "5002", "chave", "4"]⟩
      = some ⟨⟨(some "10.0.0.9", 9000),
               [(some "10.0.0.1", 5001), (some "10.0.0.2", 5002)], [], 2, 100,
               [("10.0.0.5:5005", 11, "SEARCH_BP")], Statistics.init,
               some (some "10.0.0.9", 9000), [], some (some "10.0.0.1", 5001)⟩,
              [], [Signal.bpCycle, Signal.addressNone]⟩ :=
  c3_cycle_bounces_forwarded_copy
    ⟨(some "10.0.0.9", 9000),
     [(some "10.0.0.1", 5001), (some "10.0.0.2", 5002)], [], 1, 100,
     [("10.0.0.5:5005", 11, "SEARCH_BP")], Metrics.init,
     some (some "10.0.0.9", 9000), [], some (some "10.0.0.1", 5001)⟩
    ⟨(some "10.0.0.9", 9000),
     [(some "10.0.0.1", 5001), (some "10.0.0.2", 5002)], [], 2, 100,
     [], Statistics.init, some (some "10.0.0.9", 9000), [],
     some (some "10.0.0.1", 5001)⟩
    ⟨some "10.0.0.2", (some "10.0.0.5", 5005), 11, 6, "SEARCH",
     ["BP", "5002", "chave", "4"]⟩
    "BP" "5002" "chave" "4" "10.0.0.2" 5002 4
    (some "10.0.0.1", 5001) (some "10.0.0.9", 9000) (some "10.0.0.1", 5001)
    rfl rfl rfl rfl rfl (by decide) (by decide) rfl (by decide)
    rfl (by decide) rfl rfl

/-- C4: for every SEARCH message with argument list (mode, relayPort, key,
hopCount), `forward` rewrites the relay-port argument to the new relay's
port, decrements the TTL by exactly one, increments the hop count by exactly
one and preserves origin, sequence number, operation, mode and key — with no
restriction on the TTL; the forwarded copy is expired exactly when the
original TTL was at most 1; and whenever the forwarded copy is expired it is
discarded without being relayed to any neighbour, by each of the three
main.py handlers and by peernode.py's shared gate and its three mode handlers
(only the dedup key, the counters and a ttl-expired signal change). -/
theorem c4_forward_decrements_ttl_and_expired_is_dropped
    (m : Message) (a : PAddr) (p : Peer) (pn : PeerNode) (k : Nat)
    (mode lps key hc s : String) (lp hcv : Int)
    (hargs : m.args = [mode, lps, key, hc])
    (hlp : strToInt? lps = some lp)
    (hhc : strToInt? hc = some hcv)
    (hsender : m.sender = some s)
    (hkey : lookupKey p.data key = none)
    (hdup : m.to_unique_tuple ∉ p.processed)
    (hnkey : lookupKey pn.keys key = none)
    (hndup : m.to_unique_tuple ∉ pn.seen_messages) :
    m.forward_message a
      = some ⟨none, m.origin, m.seqno, m.ttl - 1, m.operation,
              [mode, intToStr a.2, key, intToStr (hcv + 1)]⟩
    ∧ strToInt? (intToStr a.2) = some a.2
    ∧ strToInt? (intToStr (hcv + 1)) = some (hcv + 1)
    ∧ (∀ f, m.forward_message a = some f → (f.is_ttl_expired = true ↔ m.ttl ≤ 1))
    ∧ (m.ttl ≤ 1 →
        Peer.handle_flood_search p m
          = some ⟨{ p with
                    processed := insertOnce m.to_unique_tuple p.processed,
                    metrics :=
                      { p.metrics with flood_count := p.metrics.flood_count + 1 } },
                  [], [Signal.ttlExpired]⟩
      ∧ Peer.handle_random_walk_search p m k
          = some ⟨{ p with
                    processed := insertOnce m.to_unique_tuple p.processed,
                    metrics :=
                      { p.metrics with
                        random_walk_count := p.metrics.random_walk_count + 1 } },
                  [], [Signal.ttlExpired]⟩
      ∧ Peer.handle_depth_first_search p m
          = some ⟨{ p with
                    metrics :=
                      { p.metrics with
                        depth_first_count := p.metrics.depth_first_count + 1 } },
                  [], [Signal.ttlExpired]⟩
      ∧ PeerNode.process_search_message pn m
          = some ({ pn with
                    seen_messages := insertOnce m.to_unique_tuple pn.seen_messages },
                  [], [Signal.ttlExpired], none)
      ∧ PeerNode.process_flood_search pn m
          = some ⟨{ pn with
                    seen_messages := insertOnce m.to_unique_tuple pn.seen_messages },
                  [], [Signal.ttlExpired]⟩
      ∧ PeerNode.process_random_search pn m k
          = some ⟨{ pn with
                    seen_messages := insertOnce m.to_unique_tuple pn.seen_messages },
                  [], [Signal.ttlExpired]⟩
      ∧ PeerNode.process_depth_search pn m
          = some ⟨{ pn with
                    seen_messages := insertOnce m.to_unique_tuple pn.seen_messages },
                  [], [Signal.ttlExpired]⟩) := by
  have hfwd : ∀ b : PAddr, m.forward_message b
      = some ⟨none, m.origin, m.seqno, m.ttl - 1, m.operation,
              [mode, intToStr b.2, key, intToStr (hcv + 1)]⟩ := by
    intro b
    unfold Message.forward_message
    rw [hargs]
    simp [hhc]
  refine ⟨hfwd a, strToInt?_intToStr a.2, strToInt?_intToStr (hcv + 1), ?_, ?_⟩
  · intro f hf
    rw [hfwd a] at hf
    cases hf
    simp only [Message.is_ttl_expired, decide_eq_true_eq]
    omega
  · intro httl
    have hT : (decide (m.ttl - 1 ≤ 0)) = true := by
      simp only [decide_eq_true_eq]
      omega
    have hgate : PeerNode.process_search_message pn m
        = some ({ pn with
                  seen_messages := insertOnce m.to_unique_tuple pn.seen_messages },
                [], [Signal.ttlExpired], none) := by
      unfold PeerNode.process_search_message
      rw [hargs]
      simp only [hlp, hnkey, hfwd pn.address, Message.is_ttl_expired]
      rw [if_neg (by simpa using hndup), if_pos hT]
    refine ⟨?_, ?_, ?_, hgate, ?_, ?_, ?_⟩
    · unfold Peer.handle_flood_search
      rw [hargs]
      simp only [hlp, hkey, hsender]
      rw [if_neg (by simpa using hdup)]
      simp only [hfwd p.address, Message.is_ttl_expired, hT, if_true]
    · unfold Peer.handle_random_walk_search
      rw [hargs]
      simp only [hlp, hkey, hsender]
      simp only [hfwd p.address, Message.is_ttl_expired, hT, if_true]
    · unfold Peer.handle_depth_first_search
      rw [hargs]
      simp only [hlp, hkey, hsender]
      simp only [hfwd p.address, Message.is_ttl_expired, hT, if_true]
    · unfold PeerNode.process_flood_search
      rw [hgate]
    · unfold PeerNode.process_random_search
      rw [hgate]
    · unfold PeerNode.process_depth_search
      rw [hgate]

/-- C4 (witness): the forward/expiry theorem applied at a concrete message
with TTL 1, whose forwarded copy has TTL 0 and is dropped by the handlers of
both implementations. -/
theorem c4_forward_decrements_ttl_witness :
    Message.forward_message
      ⟨some "10.0.0.1", (some "10.0.0.5", 5005), 2, 1, "SEARCH",
       ["FL", "5001", "chave", "3"]⟩ (some "10.0.0.7", 7000)
      = some ⟨none, (some "10.0.0.5", 5005), 2, 0, "SEARCH",
              ["FL", "7000", "chave", "4"]⟩
  ∧ strToInt? "7000" = some 7000
  ∧ strToInt? "4" = some 4
  ∧ Message.is_ttl_expired
      ⟨none, (some "10.0.0.5", 5005), 2, 0, "SEARCH", ["FL", "7000", "chave", "4"]⟩
      = true
  ∧ Peer.handle_flood_search
      ⟨(some "10.0.0.9", 9000), [(some "10.0.0.1", 5001)], [], 1, 100, [],
       Metrics.init, none, [], none⟩
      ⟨some "10.0.0.1", (some "10.0.0.5", 5005), 2, 1, "SEARCH",
       ["FL", "5001", "chave", "3"]⟩
      = some ⟨⟨(some "10.0.0.9", 9000), [(some "10.0.0.1", 5001)], [], 1, 100,
               [("10.0.0.5:5005", 2, "SEARCH_FL")], ⟨1, 0, 0, 0, 0, 0, 0, 0, 0, 0, 0, 0⟩,
               none, [], none⟩, [], [Signal.ttlExpired]⟩
  ∧ Peer.handle_random_walk_search
      ⟨(some "10.0.0.9", 9000), [(some "10.0.0.1", 5001)], [], 1, 100, [],
       Metrics.init, none, [], none⟩
      ⟨some "10.0.0.1", (some "10.0.0.5", 5005), 2, 1, "SEARCH",
       ["FL", "5001", "chave", "3"]⟩ 0
      = some ⟨⟨(some "10.0.0.9", 9000), [(some "10.0.0.1", 5001)], [], 1, 100,
               [("10.0.0.5:5005", 2, "SEARCH_FL")], ⟨0, 1, 0, 0, 0, 0, 0, 0, 0, 0, 0, 0⟩,
               none, [], none⟩, [], [Signal.ttlExpired]⟩
  ∧ Peer.handle_depth_first_search
      ⟨(some "10.0.0.9", 9000), [(some "10.0.0.1", 5001)], [], 1, 100, [],
       Metrics.init, none, [], none⟩
      ⟨some "10.0.0.1", (some "10.0.0.5", 5005), 2, 1, "SEARCH",
       ["FL", "5001", "chave", "3"]⟩
      = some ⟨⟨(some "10.0.0.9", 9000), [(some "10.0.0.1", 5001)], [], 1, 100, [],
               ⟨0, 0, 1, 0, 0, 0, 0, 0, 0, 0, 0, 0⟩, none, [], none⟩,
              [], [Signal.ttlExpired]⟩
  ∧ PeerNode.process_search_message
      ⟨(some "10.0.0.9", 9000), [(some "10.0.0.1", 5001)], [], 1, 100, [],
       Statistics.init, none, [], none⟩
      ⟨some "10.0.0.1", (some "10.0.0.5", 5005), 2, 1, "SEARCH",
       ["FL", "5001", "chave", "3"]⟩
      = some (⟨(some "10.0.0.9", 9000), [(some "10.0.0.1", 5001)], [], 1, 100,
               [("10.0.0.5:5005", 2, "SEARCH_FL")], Statistics.init, none, [], none⟩,
              [], [Signal.ttlExpired], none)
  ∧ PeerNode.process_flood_search
      ⟨(some "10.0.0.9", 9000), [(some "10.0.0.1", 5001)], [], 1, 100, [],
       Statistics.init, none, [], none⟩
      ⟨some "10.0.0.1", (some "10.0.0.5", 5005), 2, 1, "SEARCH",
       ["FL", "5001", "chave", "3"]⟩
      = some ⟨⟨(some "10.0.0.9", 9000), [(some "10.0.0.1", 5001)], [], 1, 100,
               [("10.0.0.5:5005", 2, "SEARCH_FL")], Statistics.init, none, [], none⟩,
              [], [Signal.ttlExpired]⟩
  ∧ PeerNode.process_random_search
      ⟨(some "10.0.0.9", 9000), [(some "10.0.0.1", 5001)], [], 1, 100, [],
       Statistics.init, none, [], none⟩
      ⟨some "10.0.0.1", (some "10.0.0.5", 5005), 2, 1, "SEARCH",
       ["FL", "5001", "chave", "3"]⟩ 0
      = some ⟨⟨(some "10.0.0.9", 9000), [(some "10.0.0.1", 5001)], [], 1, 100,
               [("10.0.0.5:5005", 2, "SEARCH_FL")], Statistics.init, none, [], none⟩,
              [], [Signal.ttlExpired]⟩
  ∧ PeerNode.process_depth_search
      ⟨(some "10.0.0.9", 9000), [(some "10.0.0.1", 5001)], [], 1, 100, [],
       Statistics.init, none, [], none⟩
      ⟨some "10.0.0.1", (some "10.0.0.5", 5005), 2, 1, "SEARCH",
       ["FL", "5001", "chave", "3"]⟩
      = some ⟨⟨(some "10.0.0.9", 9000), [(some "10.0.0.1", 5001)], [], 1, 100,
               [("10.0.0.5:5005", 2, "SEARCH_FL")], Statistics.init, none, [], none⟩,
              [], [Signal.ttlExpired]⟩ := by
  have h := c4_forward_decrements_ttl_and_expired_is_dropped
    ⟨some "10.0.0.1", (some "10.0.0.5", 5005), 2, 1, "SEARCH",
     ["FL", "5001", "chave", "3"]⟩ (some "10.0.0.7", 7000)
    ⟨(some "10.0.0.9", 9000), [(some "10.0.0.1", 5001)], [], 1, 100, [],
     Metrics.init, none, [], none⟩
    ⟨(some "10.0.0.9", 9000), [(some "10.0.0.1", 5001)], [], 1, 100, [],
     Statistics.init, none, [], none⟩ 0
    "FL" "5001" "chave" "3" "10.0.0.1" 5001 3
    rfl rfl rfl rfl rfl (by decide) rfl (by decide)
  have hdrop := h.2.2.2.2 (by decide)
  exact ⟨h.1, h.2.1, h.2.2.1, (h.2.2.2.1 _ h.1).mpr (by decide),
         hdrop.1, hdrop.2.1, hdrop.2.2.1, hdrop.2.2.2.1, hdrop.2.2.2.2.1,
         hdrop.2.2.2.2.2.1, hdrop.2.2.2.2.2.2⟩

/-- C5: the random-walk next hop must be drawn from the neighbours excluding
the relay the message arrived from, with a bounce back to that relay at a
dead end.  main.py `Peer` does exactly this (first and third conjuncts: the
relay R is excluded; with no neighbours the walk bounces back to R).
peernode.py violates the claim: its exclusion filter compares neighbours
against the forwarded copy's sender (always `None`), so the draw below picks
the relay R itself (second conjunct), and at a dead end it passes the `None`
sender to `send_message`, which drops the walk with an address-is-None error
instead of bouncing (fourth conjunct). -/
theorem c5_peernode_random_walk_does_not_exclude_relay :
    Peer.handle_random_walk_search
      ⟨(some "10.0.0.9", 9000),
       [(some "10.0.0.1", 5001), (some "10.0.0.2", 5002)], [], 1, 100, [],
       Metrics.init, none, [], none⟩
      ⟨some "10.0.0.1", (some "10.0.0.5", 5005), 4, 5, "SEARCH",
       ["RW", "5001", "chave", "2"]⟩ 0
      = some ⟨⟨(some "10.0.0.9", 9000),
               [(some "10.0.0.1", 5001), (some "10.0.0.2", 5002)], [], 1, 100,
               [("10.0.0.5:5005", 4, "SEARCH_RW")], ⟨0, 1, 0, 0, 0, 0, 0, 0, 0, 0, 0, 0⟩,
               none, [], none⟩,
              [((some "10.0.0.2", 5002),
                ⟨none, (some "10.0.0.5", 5005), 4, 4, "SEARCH",
                 ["RW", "9000", "chave", "3"]⟩)], []⟩
  ∧ PeerNode.process_random_search
      ⟨(some "10.0.0.9", 9000),
       [(some "10.0.0.1", 5001), (some "10.0.0.2", 5002)], [], 1, 100, [],
       Statistics.init, none, [], none⟩
      ⟨some "10.0.0.1", (some "10.0.0.5", 5005), 4, 5, "SEARCH",
       ["RW", "5001", "chave", "2"]⟩ 0
      = some ⟨⟨(some "10.0.0.9", 9000),
               [(some "10.0.0.1", 5001), (some "10.0.0.2", 5002)], [], 1, 100,
               [("10.0.0.5:5005", 4, "SEARCH_RW")], Statistics.init, none, [], none⟩,
              [((some "10.0.0.1", 5001),
                ⟨none, (some "10.0.0.5", 5005), 4, 4, "SEARCH",
                 ["RW", "9000", "chave", "3"]⟩)], []⟩
  ∧ Peer.handle_random_walk_search
      ⟨(some "10.0.0.9", 9000), [], [], 1, 100, [], Metrics.init, none, [], none⟩
      ⟨some "10.0.0.1", (some "10.0.0.5", 5005), 4, 5, "SEARCH",
       ["RW", "5001", "chave", "2"]⟩ 0
      = some ⟨⟨(some "10.0.0.9", 9000), [], [], 1, 100,
               [("10.0.0.5:5005", 4, "SEARCH_RW")], ⟨0, 1, 0, 0, 0, 0, 0, 0, 0, 0, 0, 0⟩,
               none, [], none⟩,
              [((some "10.0.0.1", 5001),
                ⟨none, (some "10.0.0.5", 5005), 4, 4, "SEARCH",
                 ["RW", "9000", "chave", "3"]⟩)], []⟩
  ∧ PeerNode.process_random_search
      ⟨(some "10.0.0.9", 9000), [], [], 1, 100, [], Statistics.init, none, [], none⟩
      ⟨some "10.0.0.1", (some "10.0.0.5", 5005), 4, 5, "SEARCH",
       ["RW", "5001", "chave", "2"]⟩ 0
      = some ⟨⟨(some "10.0.0.9", 9000), [], [], 1, 100,
               [("10.0.0.5:5005", 4, "SEARCH_RW")], Statistics.init, none, [], none⟩,
              [], [Signal.addressNone]⟩ := by
  exact ⟨rfl, rfl, rfl, rfl⟩

/-- C6: the flood relay destinations must be exactly the neighbour list minus
the last-hop address.  main.py `Peer` relays the concrete flood below only to
the neighbour B, excluding the relay R it arrived from.  peernode.py violates
the claim: its exclusion filter compares each neighbour against the forwarded
copy's sender (always `None`), so it relays to every neighbour — including R,
the relay the message arrived from. -/
theorem c6_peernode_floods_back_to_relay :
    Peer.handle_flood_search
      ⟨(some "10.0.0.9", 9000),
       [(some "10.0.0.1", 5001), (some "10.0.0.2", 5002)], [], 1, 100, [],
       Metrics.init, none, [], none⟩
      ⟨some "10.0.0.1", (some "10.0.0.5", 5005), 6, 5, "SEARCH",
       ["FL", "5001", "chave", "2"]⟩
      = some ⟨⟨(some "10.0.0.9", 9000),
               [(some "10.0.0.1", 5001), (some "10.0.0.2", 5002)], [], 1, 100,
               [("10.0.0.5:5005", 6, "SEARCH_FL")], ⟨1, 0, 0, 0, 0, 0, 0, 0, 0, 0, 0, 0⟩,
               none, [], none⟩,
              [((some "10.0.0.2", 5002),
                ⟨none, (some "10.0.0.5", 5005), 6, 4, "SEARCH",
                 ["FL", "9000", "chave", "3"]⟩)], []⟩
  ∧ PeerNode.process_flood_search
      ⟨(some "10.0.0.9", 9000),
       [(some "10.0.0.1", 5001), (some "10.0.0.2", 5002)], [], 1, 100, [],
       Statistics.init, none, [], none⟩
      ⟨some "10.0.0.1", (some "10.0.0.5", 5005), 6, 5, "SEARCH",
       ["FL", "5001", "chave", "2"]⟩
      = some ⟨⟨(some "10.0.0.9", 9000),
               [(some "10.0.0.1", 5001), (some "10.0.0.2", 5002)], [], 1, 100,
               [("10.0.0.5:5005", 6, "SEARCH_FL")], Statistics.init, none, [], none⟩,
              [((some "10.0.0.1", 5001),
                ⟨none, (some "10.0.0.5", 5005), 6, 4, "SEARCH",
                 ["FL", "9000", "chave", "3"]⟩),
               ((some "10.0.0.2", 5002),
                ⟨none, (some "10.0.0.5", 5005), 6, 4, "SEARCH",
                 ["FL", "9000", "chave", "3"]⟩)], []⟩ := by
  exact ⟨rfl, rfl⟩

/-- C7: for every valid wire message — resolvable origin (a host token
without colon or whitespace), integer sequence number and TTL, an upper-case
whitespace-free operation and whitespace-free nonempty argument tokens —
parsing the serialization yields the message back field for field. -/
theorem c7_parse_serialize_roundtrip (m : Message) (ip : String)
    (hip : m.origin.1 = some ip) (hipc : ':' ∉ ip.data) (hips : ' ' ∉ ip.data)
    (hopne : m.operation.data ≠ []) (hops : ' ' ∉ m.operation.data)
    (hopup : pyUpper m.operation.data = m.operation.data)
    (hargs : ∀ a ∈ m.args, a.data ≠ [] ∧ ' ' ∉ a.data) :
    parseMessage m.sender (serializeMessage m) = some m :=
  parseMessage_serializeMessage m ip hip hipc hips hopne hops hopup hargs

/-- C7 (witness): the round trip applied at a concrete SEARCH message with a
negative TTL. -/
theorem c7_parse_serialize_roundtrip_witness :
    parseMessage (some "10.0.0.1")
      (serializeMessage
        ⟨some "10.0.0.1", (some "10.0.0.5", 5005), 12, -3, "SEARCH",
         ["FL", "5001", "chave", "7"]⟩)
      = some ⟨some "10.0.0.1", (some "10.0.0.5", 5005), 12, -3, "SEARCH",
              ["FL", "5001", "chave", "7"]⟩ :=
  c7_parse_serialize_roundtrip
    ⟨some "10.0.0.1", (some "10.0.0.5", 5005), 12, -3, "SEARCH",
     ["FL", "5001", "chave", "7"]⟩
    "10.0.0.5" rfl (by decide) (by decide) (by decide) (by decide) (by decide)
    (by decide)

/-- C8: setting the default TTL to a non-positive value must fail with an
error and leave the TTL unchanged.  peernode.py obeys this (first and third
conjuncts: `0` is rejected and the TTL stays 100, `50` is applied).
main.py / main3.py violate it: their handler assigns the entered value first
and only then checks it, so after entering `0` the error is reported but the
default TTL has become 0 (second conjunct). -/
theorem c8_main_set_default_ttl_applies_invalid_value :
    PeerNode.change_default_ttl
      ⟨(some "10.0.0.9", 9000), [], [], 1, 100, [], Statistics.init, none, [], none⟩ 0
      = (⟨(some "10.0.0.9", 9000), [], [], 1, 100, [], Statistics.init, none, [], none⟩,
         [Signal.ttlError])
  ∧ Peer.set_default_ttl
      ⟨(some "10.0.0.9", 9000), [], [], 1, 100, [], Metrics.init, none, [], none⟩ 0
      = (⟨(some "10.0.0.9", 9000), [], [], 1, 0, [], Metrics.init, none, [], none⟩,
         [Signal.ttlError])
  ∧ PeerNode.change_default_ttl
      ⟨(some "10.0.0.9", 9000), [], [], 1, 100, [], Statistics.init, none, [], none⟩ 50
      = (⟨(some "10.0.0.9", 9000), [], [], 1, 50, [], Statistics.init, none, [], none⟩,
         []) := by
  exact ⟨rfl, rfl, rfl⟩

/-- C9: an empty sample list reports "N/A" (modelled as `none`) in both the
sample-list and the running-aggregate implementations; on a nonempty sample
list the two variance formulas `Σ(x − mean)²/n` and `Σx²/n − mean²` agree;
and on the samples `[2, 4, 6]` the mean is exactly 4 and the population
standard deviation `√variance` is within 0.01 of 1.63. -/
theorem c9_statistics_mean_and_population_stddev (hops : List Int) (μ σ2 : ℚ)
    (h : hops ≠ [])
    (hc : Statistics.calculate_stats [2, 4, 6] = some (μ, σ2)) :
    Statistics.calculate_stats [] = none
  ∧ (∀ t q : Int, compute_stats 0 t q = none)
  ∧ Statistics.calculate_stats hops
      = compute_stats hops.length hops.sum ((hops.map (fun x : Int => x * x)).sum)
  ∧ μ = 4
  ∧ |Real.sqrt (σ2 : ℝ) - 1.63| ≤ 0.01 := by
  have hval : Statistics.calculate_stats [2, 4, 6] = some (4, 8 / 3) := by
    rw [Statistics.calculate_stats, if_neg (by decide)]
    norm_num [List.map_cons, List.map_nil, List.sum_cons, List.sum_nil]
  rw [hval] at hc
  obtain ⟨hμ, hσ⟩ := Prod.mk.injEq .. ▸ Option.some.inj hc.symm
  refine ⟨rfl, fun t q => rfl, calculate_stats_eq_compute_stats hops h, hμ, ?_⟩
  rw [hσ]
  have hcast : (((8 : ℚ) / 3 : ℚ) : ℝ) = (8 : ℝ) / 3 := by
    push_cast
    ring
  rw [hcast]
  have h1 : Real.sqrt ((8 : ℝ) / 3) ≤ 1.64 := by
    calc Real.sqrt ((8 : ℝ) / 3) ≤ Real.sqrt (1.64 ^ 2) :=
          Real.sqrt_le_sqrt (by norm_num)
      _ = 1.64 := Real.sqrt_sq (by norm_num)
  have h2 : (1.62 : ℝ) ≤ Real.sqrt ((8 : ℝ) / 3) := by
    calc (1.62 : ℝ) = Real.sqrt (1.62 ^ 2) := (Real.sqrt_sq (by norm_num)).symm
      _ ≤ Real.sqrt ((8 : ℝ) / 3) := Real.sqrt_le_sqrt (by norm_num)
  rw [abs_le]
  constructor <;> linarith

/-- C9 (witness): the statistics theorem applied at the concrete samples
`[2, 4, 6]`. -/
theorem c9_statistics_witness :
    Statistics.calculate_stats [] = none
  ∧ compute_stats 0 5 7 = none
  ∧ Statistics.calculate_stats [2, 4, 6]
      = compute_stats 3 12 56
  ∧ |Real.sqrt (((8 : ℚ) / 3 : ℚ) : ℝ) - 1.63| ≤ 0.01 := by
  have h := c9_statistics_mean_and_population_stddev [2, 4, 6] 4 (8 / 3)
    (by decide) (by
      rw [Statistics.calculate_stats, if_neg (by decide)]
      norm_num [List.map_cons, List.map_nil, List.sum_cons, List.sum_nil])
  exact ⟨h.1, h.2.1 5 7, h.2.2.1, h.2.2.2.2⟩

/-- C10: with an empty neighbour table and no local hit, originating a
random-walk search raises (`random.choice` on an empty sequence, modelled as
`none`) and originating a depth-first search raises (`pop` from an empty
list, modelled as `none`) in both implementations, while flood origination
returns normally and simply sends nothing. -/
theorem c10_empty_neighbor_table_crashes_rw_and_bp_origination
    (p : Peer) (pn : PeerNode) (key : String) (k : Nat)
    (hp : p.neighbors = []) (hpk : lookupKey p.data key = none)
    (hn : pn.neighbours = []) (hnk : lookupKey pn.keys key = none) :
    Peer.start_random_walk_search p key k = none
  ∧ Peer.start_depth_first_search p key = none
  ∧ (Peer.start_flood_search p key).map Effects.sends = some []
  ∧ PeerNode.new_search pn "RW" key k = none
  ∧ PeerNode.new_search pn "BP" key k = none
  ∧ (PeerNode.new_search pn "FL" key k).map Effects.sends = some [] := by
  refine ⟨?_, ?_, ?_, ?_, ?_, ?_⟩
  · unfold Peer.start_random_walk_search
    rw [hpk]
    simp [hp, pyChoice]
  · unfold Peer.start_depth_first_search
    rw [hpk]
    simp [hp, pyPop]
  · unfold Peer.start_flood_search
    rw [hpk]
    simp [hp]
  · unfold PeerNode.new_search
    rw [hnk]
    simp [hn, pyChoice]
  · unfold PeerNode.new_search
    rw [hnk]
    simp [hn, pyPop]
  · unfold PeerNode.new_search
    rw [hnk]
    simp [hn]

/-- C10 (witness): the empty-table origination theorem applied at concrete
fresh nodes. -/
theorem c10_empty_neighbor_table_witness :
    Peer.start_random_walk_search
      ⟨(some "10.0.0.9", 9000), [], [], 1, 100, [], Metrics.init, none, [], none⟩
      "chave" 0 = none
  ∧ Peer.start_depth_first_search
      ⟨(some "10.0.0.9", 9000), [], [], 1, 100, [], Metrics.init, none, [], none⟩
      "chave" = none
  ∧ (Peer.start_flood_search
      ⟨(some "10.0.0.9", 9000), [], [], 1, 100, [], Metrics.init, none, [], none⟩
      "chave").map Effects.sends = some []
  ∧ PeerNode.new_search
      ⟨(some "10.0.0.9", 9000), [], [], 1, 100, [], Statistics.init, none, [], none⟩
      "RW" "chave" 0 = none
  ∧ PeerNode.new_search
      ⟨(some "10.0.0.9", 9000), [], [], 1, 100, [], Statistics.init, none, [], none⟩
      "BP" "chave" 0 = none
  ∧ (PeerNode.new_search
      ⟨(some "10.0.0.9", 9000), [], [], 1, 100, [], Statistics.init, none, [], none⟩
      "FL" "chave" 0).map Effects.sends = some [] :=
  c10_empty_neighbor_table_crashes_rw_and_bp_origination
    ⟨(some "10.0.0.9", 9000), [], [], 1, 100, [], Metrics.init, none, [], none⟩
    ⟨(some "10.0.0.9", 9000), [], [], 1, 100, [], Statistics.init, none, [], none⟩
    "chave" 0 rfl rfl rfl rfl
